import Mathlib

/-
Shallow embedding of the QEMU m68k Macintosh VIA device model
(hw/misc/mac_via.c): the RTC/PRAM serial engine, the ADB host protocol,
the register-window decode, the VIA2 power-off hook and the VBL timer
rescheduling formula.  Machine integers are modelled as Nat with explicit
truncation (% 256 for the 8-bit device registers, % 2^32 for the 32-bit
seconds value), matching C unsigned arithmetic.  External collaborators
(the generic mos6522 register engine and the ADB bus transport) are
modelled as oracle parameters, since only their call results are observed
by this file of the source.
-/

/-! Bit constants from hw/misc/mac_via.c -/

def VIA1B_vADBInt : Nat := 0x08

def VIA1B_vRTCEnb : Nat := 0x04

def VIA1B_vRTCClk : Nat := 0x02

def VIA1B_vRTCData : Nat := 0x01

def VIA1ACR_vShiftOut : Nat := 0x10

def VIA2B_vPower : Nat := 0x04

def NANOSECONDS_PER_SECOND : Nat := 1000000000

/-- Device state relevant to the claims: the mos6522 VIA1 registers the code
touches (b, dirb, acr, sr), the last-port-B snapshot, and the RTC serial
engine fields of MacVIAState, plus the 256-byte PRAM store (a process-wide
array in the source, carried here as a field).  The 8-bit serial registers
are bytes; shifts truncate mod 256. -/
structure MacVIAState where
  b : Nat
  dirb : Nat
  acr : Nat
  sr : Nat
  last_b : Nat
  tick_offset : Nat
  data_out : Nat
  data_out_cnt : Nat
  data_in : Nat
  data_in_cnt : Nat
  cmd : Nat
  alt : Nat
  wprotect : Nat
  PRAM : Nat → Nat

/-- Pointwise update of the PRAM store (PRAM[a] = v). -/
def updPRAM (f : Nat → Nat) (a v : Nat) : Nat → Nat :=
  fun x => if x = a then v else f x

/-- The 32-bit seconds value read by the RTC:
tick_offset + now / NANOSECONDS_PER_SECOND, truncated to uint32. -/
def rtcTime (now off : Nat) : Nat :=
  (off + now / NANOSECONDS_PER_SECOND) % 4294967296

/-- First-byte command decode of via1_rtc_update (the cmd == 0 branch of the
completed-byte dispatch). -/
def rtcCmdFirst (now : Nat) (m : MacVIAState) : MacVIAState :=
  if m.data_out &&& 0x80 ≠ 0 then
    if m.data_out = 0x81 then
      { m with data_in := rtcTime now m.tick_offset &&& 0xff, data_in_cnt := 8 }
    else if m.data_out = 0x85 then
      { m with data_in := (rtcTime now m.tick_offset >>> 8) &&& 0xff, data_in_cnt := 8 }
    else if m.data_out = 0x89 then
      { m with data_in := (rtcTime now m.tick_offset >>> 16) &&& 0xff, data_in_cnt := 8 }
    else if m.data_out = 0x8d then
      { m with data_in := (rtcTime now m.tick_offset >>> 24) &&& 0xff, data_in_cnt := 8 }
    else if m.data_out &&& 0xf3 = 0xa1 then
      { m with data_in := m.PRAM ((m.data_out >>> 2) &&& 0x03), data_in_cnt := 8 }
    else if m.data_out &&& 0xf3 = 0xa1 then
      { m with data_in := m.PRAM ((m.data_out >>> 2) &&& 0x0f), data_in_cnt := 8 }
    else if m.data_out &&& 0xf8 = 0xb8 then
      { m with cmd := m.data_out }
    else m
  else
    { m with cmd := m.data_out }

/-- Second-byte dispatch of via1_rtc_update (the cmd != 0 branch of the
completed-byte dispatch), transcribed branch for branch, including the two
branches whose guards require bit 7 of the latched write command. -/
def rtcCmdSecond (m : MacVIAState) : MacVIAState :=
  if m.cmd &&& 0x80 ≠ 0 then
    if m.cmd &&& 0xf8 = 0xb8 then
      { m with
        data_in := m.PRAM ((m.cmd &&& 0x07) * 8 + ((m.data_out >>> 2) &&& 0x1f)),
        data_in_cnt := 8 }
    else m
  else if m.wprotect = 0 then
    if m.alt ≠ 0 then
      { m with
        PRAM := updPRAM m.PRAM ((m.cmd &&& 0x07) * 8 + ((m.alt >>> 2) &&& 0x1f)) m.data_out,
        alt := 0 }
    else if m.cmd = 0x01 then m
    else if m.cmd = 0x05 then m
    else if m.cmd = 0x09 then m
    else if m.cmd = 0x0d then m
    else if m.cmd = 0x31 then m
    else if m.cmd = 0x35 then
      { m with wprotect := m.data_out &&& 1 }
    else if m.cmd &&& 0xf3 = 0xa1 then
      { m with PRAM := updPRAM m.PRAM ((m.cmd >>> 2) &&& 0x03) m.data_out }
    else if m.cmd &&& 0xf3 = 0xa1 then
      { m with PRAM := updPRAM m.PRAM ((m.cmd >>> 2) &&& 0x0f) m.data_out }
    else if m.cmd &&& 0xf8 = 0xb8 then
      { m with alt := m.cmd }
    else m
  else m

/-- The completed-byte dispatch of via1_rtc_update: runs when data_out_cnt
has reached 8; resets data_out_cnt and clears data_out after the branch. -/
def rtcDispatch (now : Nat) (m : MacVIAState) : MacVIAState :=
  { (if m.cmd = 0 then rtcCmdFirst now m else rtcCmdSecond m) with
    data_out := 0, data_out_cnt := 0 }

/-- Edge-triggered serial shift step of via1_rtc_update: accumulate a bit on
a rising clock edge when the data line is an output, or emit a bit on a
falling clock edge when the data line is an input and a response is
pending. -/
def rtcShift (m : MacVIAState) : MacVIAState :=
  if m.dirb &&& VIA1B_vRTCData ≠ 0 then
    if m.last_b &&& VIA1B_vRTCClk = 0 ∧ m.b &&& VIA1B_vRTCClk ≠ 0 then
      { m with
        data_out := ((m.data_out <<< 1) % 256) ||| (m.b &&& VIA1B_vRTCData),
        data_out_cnt := m.data_out_cnt + 1 }
    else m
  else
    if m.last_b &&& VIA1B_vRTCClk ≠ 0 ∧ m.b &&& VIA1B_vRTCClk = 0 ∧ m.data_in_cnt ≠ 0 then
      { m with
        b := (m.b &&& 0xfe) ||| ((m.data_in >>> 7) &&& VIA1B_vRTCData),
        data_in := (m.data_in <<< 1) % 256,
        data_in_cnt := m.data_in_cnt - 1 }
    else m

/-- via1_rtc_update: returns immediately while the RTC-enable bit
(active-low) is set in port B; otherwise performs the serial shift step and,
if a full byte has accumulated, the completed-byte dispatch. -/
def via1_rtc_update (now : Nat) (m : MacVIAState) : MacVIAState :=
  if m.b &&& VIA1B_vRTCEnb ≠ 0 then m
  else if (rtcShift m).data_out_cnt = 8 then rtcDispatch now (rtcShift m)
  else rtcShift m

/-- Processing of one completed host-to-device byte v by the RTC serial
engine: exactly the data_out_cnt == 8 dispatch of via1_rtc_update, with
data_out holding the accumulated byte. -/
def feedByte (now : Nat) (m : MacVIAState) (v : Nat) : MacVIAState :=
  rtcDispatch now { m with data_out := v, data_out_cnt := 8 }

/-- ADB bus transport oracle: the results this device observes from
adb_send, adb_receive and adb_via_poll for a given bus state. -/
structure AdbBus where
  send : Nat → Nat → Int
  recvRet : Nat → Int
  recvByte : Nat → Nat
  pollRet : Nat → Bool
  pollByte : Nat → Nat

/-- via1_adb_update: derive the bus state from port B bits 4..5, then in
output mode (ACR shift-out set) send the shift register and clear the
vADBInt bit on a positive result, else set it; in input mode receive into
the shift register and clear the bit iff the result is positive and the
received byte is not 0xff. -/
def via1_adb_update (bus : AdbBus) (m : MacVIAState) : MacVIAState :=
  if m.acr &&& VIA1ACR_vShiftOut ≠ 0 then
    if 0 < bus.send ((m.b &&& 0x30) >>> 4) m.sr then
      { m with b := m.b &&& 0xf7 }
    else
      { m with b := m.b ||| VIA1B_vADBInt }
  else
    if 0 < bus.recvRet ((m.b &&& 0x30) >>> 4) ∧ bus.recvByte ((m.b &&& 0x30) >>> 4) ≠ 0xff then
      { m with sr := bus.recvByte ((m.b &&& 0x30) >>> 4), b := m.b &&& 0xf7 }
    else
      { m with sr := bus.recvByte ((m.b &&& 0x30) >>> 4), b := m.b ||| VIA1B_vADBInt }

/-- via_adb_poll (timer callback body, without the rearm): only when the
vADBInt bit is currently set, poll the transport and clear the bit if the
poll reports data. -/
def via_adb_poll (bus : AdbBus) (m : MacVIAState) : MacVIAState :=
  if m.b &&& VIA1B_vADBInt ≠ 0 then
    if bus.pollRet ((m.b &&& 0x30) >>> 4) then
      { m with sr := bus.pollByte ((m.b &&& 0x30) >>> 4), b := m.b &&& 0xf7 }
    else
      { m with sr := bus.pollByte ((m.b &&& 0x30) >>> 4) }
  else m

/-- mos6522_q800_via1_portB_write: run the RTC engine, then the ADB engine,
then snapshot port B into last_b. -/
def mos6522_q800_via1_portB_write (now : Nat) (bus : AdbBus) (m : MacVIAState) : MacVIAState :=
  { via1_adb_update bus (via1_rtc_update now m) with
    last_b := (via1_adb_update bus (via1_rtc_update now m)).b }

/-- One guest port-B write on the RTC serial lines (RTC engine only, as used
when clocking command bytes): store the written value in b, run the RTC
engine, snapshot last_b. -/
def rtcPortBWrite (now newb : Nat) (m : MacVIAState) : MacVIAState :=
  let m1 := via1_rtc_update now { m with b := newb }
  { m1 with last_b := m1.b }

/-- Clock one data bit into the RTC: present the bit with the serial clock
low, then raise the clock (rising edge). -/
def sendBit (now bit : Nat) (m : MacVIAState) : MacVIAState :=
  rtcPortBWrite now (VIA1B_vRTCClk ||| bit) (rtcPortBWrite now bit m)

/-- Clock a full byte into the RTC, most significant bit first. -/
def sendByte (now : Nat) (m : MacVIAState) (v : Nat) : MacVIAState :=
  (List.range 8).foldl (fun acc i => sendBit now ((v >>> (7 - i)) &&& 1) acc) m

/-- Clock a sequence of bytes into the RTC. -/
def sendBytes (now : Nat) (m : MacVIAState) (vs : List Nat) : MacVIAState :=
  vs.foldl (sendByte now) m

/-- Initial device state used by the concrete runs: RTC enabled (port B bit 2
low), serial data line configured as output, serial engine idle, PRAM
all-zero. -/
def rtcInit : MacVIAState :=
  { b := 0, dirb := VIA1B_vRTCData, acr := 0, sr := 0, last_b := 0,
    tick_offset := 0, data_out := 0, data_out_cnt := 0, data_in := 0,
    data_in_cnt := 0, cmd := 0, alt := 0, wprotect := 0, PRAM := fun _ => 0 }

/-- mos6522_q800_via1_read: the register index forwarded to the generic
engine is (offset >> 9) & 0xF. -/
def mos6522_q800_via1_read (engine : Nat → Nat) (addr : Nat) : Nat :=
  engine ((addr >>> 9) &&& 0xf)

/-- mos6522_q800_via2_read: identical decode for chip instance 2. -/
def mos6522_q800_via2_read (engine : Nat → Nat) (addr : Nat) : Nat :=
  engine ((addr >>> 9) &&& 0xf)

/-- mos6522_q800_via1_write: the (register index, value) pair forwarded to
the generic engine. -/
def mos6522_q800_via1_write (addr val : Nat) : Nat × Nat :=
  (((addr >>> 9) &&& 0xf), val)

/-- mos6522_q800_via2_write: identical decode for chip instance 2. -/
def mos6522_q800_via2_write (addr val : Nat) : Nat × Nat :=
  (((addr >>> 9) &&& 0xf), val)

/-- mos6522_q800_via2_portB_write: true iff the write issues a guest
shutdown request — the power bit direction is output and the current port-B
power bit is 0. -/
def mos6522_q800_via2_portB_write (dirb b : Nat) : Bool :=
  decide (dirb &&& VIA2B_vPower ≠ 0 ∧ b &&& VIA2B_vPower = 0)

/-- Number of shutdown requests issued by a sequence of port-B values
arriving at chip instance 2 with a fixed direction register. -/
def via2_shutdown_count (dirb : Nat) (bs : List Nat) : Nat :=
  bs.foldl (fun n bv => n + (if mos6522_q800_via2_portB_write dirb bv then 1 else 0)) 0

/-- via1_VBL / mac_via_reset rescheduling formula for the video-blank alarm:
(now + 16630) / 16630 * 16630 in integer arithmetic. -/
def via1_VBL_next (now : Nat) : Nat :=
  (now + 16630) / 16630 * 16630

/-- Deadline stated by the spec sentence (refinement comparison only):
ceil(now / 16630) * 16630, the smallest multiple of 16630 greater than or
equal to now. -/
def specVBLDeadline (now : Nat) : Nat :=
  ((now + 16629) / 16630) * 16630

/-- A transport oracle with concrete successful results, for witnesses. -/
def busOk : AdbBus :=
  { send := fun _ _ => 1, recvRet := fun _ => 1, recvByte := fun _ => 0x42,
    pollRet := fun _ => true, pollByte := fun _ => 0x42 }

/-- A VIA1 state in ADB output mode with the vADBInt bit set. -/
def mAdbOut : MacVIAState := { rtcInit with acr := VIA1ACR_vShiftOut, b := VIA1B_vADBInt }

/-- A VIA1 state with the RTC-enable (active-low) bit set, disabling the
RTC engine. -/
def mRtcOff : MacVIAState := { rtcInit with b := VIA1B_vRTCEnb }

/-- A state with the write command 0x31 latched and a pending data byte. -/
def mWrCont : MacVIAState := { rtcInit with cmd := 0x31, data_out := 7 }

/-- A state with a concrete epoch offset, for the seconds-read witness. -/
def mSec : MacVIAState := { rtcInit with tick_offset := 305419896 }

/-- A state about to dispatch the first-byte read command 0xAD (a 0xA1
pattern under mask 0xF3), over a distinguishable store. -/
def mA1 : MacVIAState :=
  { rtcInit with data_out := 0xad, data_out_cnt := 8, PRAM := fun x => x + 100 }

/-- A state with the 0xA1-pattern byte latched as the command. -/
def mA9 : MacVIAState := { rtcInit with cmd := 0xa1 }

set_option maxRecDepth 100000

/-! Helper lemmas -/

/-- A bitmask that forces bit 7 cannot match a pattern with bit 7 set when
the tested value has bit 7 clear. -/
theorem mask_forces_bit7 (c mk pat : Nat) (hmk : mk &&& 0x80 = 0x80)
    (hpat : pat &&& 0x80 = 0x80) (h0 : c &&& 0x80 = 0) : c &&& mk ≠ pat := by
  intro h
  have h1 : (c &&& mk) &&& 0x80 = pat &&& 0x80 := by rw [h]
  rw [Nat.and_assoc, hmk, hpat, h0] at h1
  exact absurd h1 (by decide)

/-- A value matching the 0xA1 pattern under the 0xF3 mask has bit 7 set. -/
theorem a1_mask_bit7 (d : Nat) (h : d &&& 0xf3 = 0xa1) : d &&& 0x80 = 0x80 := by
  have h1 : (d &&& 0xf3) &&& 0x80 = 0xa1 &&& 0x80 := by rw [h]
  rw [Nat.and_assoc, (by decide : (0xf3 : Nat) &&& 0x80 = 0x80),
      (by decide : (0xa1 : Nat) &&& 0x80 = 0x80)] at h1
  exact h1

/-- Masking with 0xF7 clears bit 3. -/
theorem and_f7_testBit3 (x : Nat) : (x &&& 0xf7).testBit 3 = false := by
  rw [Nat.testBit_and, (by decide : Nat.testBit 0xf7 3 = false), Bool.and_false]

/-- Or-ing with 8 sets bit 3. -/
theorem or_8_testBit3 (x : Nat) : (x ||| 8).testBit 3 = true := by
  rw [Nat.testBit_or, (by decide : Nat.testBit 8 3 = true), Bool.or_true]

/-- Reassembling the four little-endian bytes of a 32-bit value gives the
value back. -/
theorem le32_reassemble (t : Nat) (ht : t < 4294967296) :
    (t &&& 0xff) + ((t >>> 8) &&& 0xff) * 256 + ((t >>> 16) &&& 0xff) * 65536 +
      ((t >>> 24) &&& 0xff) * 16777216 = t := by
  have h8 : ∀ n : Nat, n &&& 0xff = n % 256 := by
    intro n
    rw [(by norm_num : (0xff : Nat) = 2 ^ 8 - 1), Nat.and_pow_two_sub_one_eq_mod]
  rw [h8, h8, h8, h8, Nat.shiftRight_eq_div_pow, Nat.shiftRight_eq_div_pow,
      Nat.shiftRight_eq_div_pow]
  norm_num
  omega

/-! C5: VBL timer rescheduling -/

/-- C5 counterexample: at virtual time t = 16630 (an exact multiple of the
period) the code schedules 33260 = t + 16630, not the smallest multiple of
16630 greater than or equal to t, which is 16630 itself. -/
theorem vbl_deadline_not_ceil_cex :
    via1_VBL_next 16630 = 33260 ∧ specVBLDeadline 16630 = 16630 ∧
    via1_VBL_next 16630 ≠ specVBLDeadline 16630 := by decide

/-- C5 (amended): the deadline the blank alarm schedules from virtual time
t is (t / 16630 + 1) * 16630 under integer division — the smallest multiple
of 16630 strictly greater than t.  It agrees with the ceiling formula of
the claim exactly when t is not a multiple of 16630. -/
theorem vbl_deadline_strict_next_multiple (t k : Nat) (hk : t < k * 16630) :
    via1_VBL_next t = (t / 16630 + 1) * 16630 ∧
    t < via1_VBL_next t ∧
    via1_VBL_next t % 16630 = 0 ∧
    via1_VBL_next t ≤ k * 16630 ∧
    (t % 16630 ≠ 0 → via1_VBL_next t = specVBLDeadline t) := by
  unfold via1_VBL_next specVBLDeadline
  omega

/-- C5 witness: the amended statement evaluated at t = 16631, k = 2. -/
theorem vbl_deadline_strict_next_multiple_witness :
    16631 < 2 * 16630 ∧
    (via1_VBL_next 16631 = (16631 / 16630 + 1) * 16630 ∧
     16631 < via1_VBL_next 16631 ∧
     via1_VBL_next 16631 % 16630 = 0 ∧
     via1_VBL_next 16631 ≤ 2 * 16630 ∧
     (16631 % 16630 ≠ 0 → via1_VBL_next 16631 = specVBLDeadline 16631)) :=
  ⟨by decide, vbl_deadline_strict_next_multiple 16631 2 (by decide)⟩

/-! C4: VIA2 power-off hook -/

/-- Folding the shutdown counter over n copies of the same port-B value. -/
theorem via2_count_replicate (dirb bv init n : Nat) :
    (List.replicate n bv).foldl
        (fun acc x => acc + (if mos6522_q800_via2_portB_write dirb x then 1 else 0)) init =
      init + n * (if mos6522_q800_via2_portB_write dirb bv then 1 else 0) := by
  induction n generalizing init with
  | zero => simp
  | succ k ih =>
    rw [List.replicate_succ, List.foldl_cons, ih]
    ring

/-- C4 counterexample: with the power bit configured as output, two
successive port-B writes that both leave the bit at 0 (a 1-to-0 transition
followed by a 0-to-0 write) issue two shutdown requests; in particular the
0-to-0 write itself issues one. -/
theorem via2_power_level_triggered_cex :
    via2_shutdown_count 4 [0, 0] = 2 ∧
    mos6522_q800_via2_portB_write 4 0 = true := by decide

/-- C4 (amended): a VIA2 port-B write requests shutdown exactly when the
power bit direction is output and the resulting port-B power bit is 0,
independent of the previous value of the bit; n consecutive such writes
issue n shutdown requests, not one. -/
theorem via2_shutdown_iff_output_and_zero (dirb bv n : Nat) :
    (mos6522_q800_via2_portB_write dirb bv = true ↔
      (dirb &&& VIA2B_vPower ≠ 0 ∧ bv &&& VIA2B_vPower = 0)) ∧
    via2_shutdown_count dirb (List.replicate n bv) =
      (if dirb &&& VIA2B_vPower ≠ 0 ∧ bv &&& VIA2B_vPower = 0 then n else 0) := by
  constructor
  · simp [mos6522_q800_via2_portB_write]
  · unfold via2_shutdown_count
    rw [via2_count_replicate]
    by_cases h : dirb &&& VIA2B_vPower ≠ 0 ∧ bv &&& VIA2B_vPower = 0
    · rw [if_pos h]
      simp [mos6522_q800_via2_portB_write, h]
    · rw [if_neg h]
      simp [mos6522_q800_via2_portB_write, h]

/-! C8: register window decode -/

/-- C8: two byte offsets inside a chip window whose (offset >> 9) & 0xF
fields agree are forwarded to the same generic-engine register, for reads
and writes on both chip instances. -/
theorem via_reg_decode_alias (o1 o2 v : Nat) (engine : Nat → Nat)
    (h1 : o1 < 0x2000) (h2 : o2 < 0x2000)
    (h : (o1 >>> 9) &&& 0xf = (o2 >>> 9) &&& 0xf) :
    mos6522_q800_via1_read engine o1 = mos6522_q800_via1_read engine o2 ∧
    mos6522_q800_via2_read engine o1 = mos6522_q800_via2_read engine o2 ∧
    mos6522_q800_via1_write o1 v = mos6522_q800_via1_write o2 v ∧
    mos6522_q800_via2_write o1 v = mos6522_q800_via2_write o2 v := by
  unfold mos6522_q800_via1_read mos6522_q800_via2_read
    mos6522_q800_via1_write mos6522_q800_via2_write
  rw [h]
  exact ⟨rfl, rfl, rfl, rfl⟩

/-- C8 witness: offsets 0x200 and 0x3FF alias to register 1. -/
theorem via_reg_decode_alias_witness :
    (0x200 : Nat) < 0x2000 ∧ (0x3ff : Nat) < 0x2000 ∧
    ((0x200 : Nat) >>> 9) &&& 0xf = ((0x3ff : Nat) >>> 9) &&& 0xf ∧
    (mos6522_q800_via1_read (fun i => i) 0x200 = mos6522_q800_via1_read (fun i => i) 0x3ff ∧
     mos6522_q800_via2_read (fun i => i) 0x200 = mos6522_q800_via2_read (fun i => i) 0x3ff ∧
     mos6522_q800_via1_write 0x200 7 = mos6522_q800_via1_write 0x3ff 7 ∧
     mos6522_q800_via2_write 0x200 7 = mos6522_q800_via2_write 0x3ff 7) :=
  ⟨by decide, by decide, by decide,
   via_reg_decode_alias 0x200 0x3ff 7 (fun i => i) (by decide) (by decide) (by decide)⟩

/-! C7: ADB status-bit semantics -/

/-- C7: in output mode a send clears the vADBInt bit (bit 3 of port B)
exactly on a positive transport result; in input mode a receive clears it
exactly when the result is positive and the received byte is not 0xFF; the
periodic poll, when the bit is currently set, clears it exactly when the
transport poll reports data, and leaves port B untouched when the bit is
already clear. -/
theorem adb_status_bit_semantics (bus : AdbBus) (m : MacVIAState) :
    (m.acr &&& VIA1ACR_vShiftOut ≠ 0 →
      ((via1_adb_update bus m).b.testBit 3 = false ↔
        0 < bus.send ((m.b &&& 0x30) >>> 4) m.sr)) ∧
    (m.acr &&& VIA1ACR_vShiftOut = 0 →
      ((via1_adb_update bus m).b.testBit 3 = false ↔
        (0 < bus.recvRet ((m.b &&& 0x30) >>> 4) ∧
         bus.recvByte ((m.b &&& 0x30) >>> 4) ≠ 0xff))) ∧
    (m.b &&& VIA1B_vADBInt ≠ 0 →
      ((via_adb_poll bus m).b.testBit 3 = false ↔
        bus.pollRet ((m.b &&& 0x30) >>> 4) = true)) ∧
    (m.b &&& VIA1B_vADBInt = 0 → (via_adb_poll bus m).b = m.b) := by
  refine ⟨fun h => ?_, fun h => ?_, fun h => ?_, fun h => ?_⟩
  · unfold via1_adb_update
    rw [if_pos h]
    by_cases hs : 0 < bus.send ((m.b &&& 0x30) >>> 4) m.sr
    · rw [if_pos hs]
      show (m.b &&& 0xf7).testBit 3 = false ↔ _
      rw [and_f7_testBit3]
      exact iff_of_true rfl hs
    · rw [if_neg hs]
      show (m.b ||| 8).testBit 3 = false ↔ _
      rw [or_8_testBit3]
      exact iff_of_false (by decide) hs
  · unfold via1_adb_update
    rw [if_neg (show ¬m.acr &&& VIA1ACR_vShiftOut ≠ 0 from fun hh => hh h)]
    by_cases hr : 0 < bus.recvRet ((m.b &&& 0x30) >>> 4) ∧
        bus.recvByte ((m.b &&& 0x30) >>> 4) ≠ 0xff
    · rw [if_pos hr]
      show (m.b &&& 0xf7).testBit 3 = false ↔ _
      rw [and_f7_testBit3]
      exact iff_of_true rfl hr
    · rw [if_neg hr]
      show (m.b ||| 8).testBit 3 = false ↔ _
      rw [or_8_testBit3]
      exact iff_of_false (by decide) hr
  · unfold via_adb_poll
    rw [if_pos h]
    by_cases hp : bus.pollRet ((m.b &&& 0x30) >>> 4) = true
    · rw [if_pos hp]
      show (m.b &&& 0xf7).testBit 3 = false ↔ _
      rw [and_f7_testBit3]
      exact iff_of_true rfl hp
    · rw [if_neg hp]
      have hb : m.b.testBit 3 = true := by
        rcases hbit : m.b.testBit 3 with _ | _
        · exfalso
          apply h
          show m.b &&& 8 = 0
          have h2 := Nat.and_two_pow m.b 3
          rw [hbit] at h2
          simpa using h2
        · rfl
      show m.b.testBit 3 = false ↔ _
      rw [hb]
      exact iff_of_false (by decide) hp
  · unfold via_adb_poll
    rw [if_neg (show ¬m.b &&& VIA1B_vADBInt ≠ 0 from fun hh => hh h)]

/-- C7 witness: the four conjuncts evaluated with a concrete transport that
answers positively, in output mode with the bit set and in input mode with
the bit clear. -/
theorem adb_status_bit_semantics_witness :
    (mAdbOut.acr &&& VIA1ACR_vShiftOut ≠ 0) ∧
    ((via1_adb_update busOk mAdbOut).b.testBit 3 = false ↔
      0 < busOk.send ((mAdbOut.b &&& 0x30) >>> 4) mAdbOut.sr) ∧
    (rtcInit.acr &&& VIA1ACR_vShiftOut = 0) ∧
    ((via1_adb_update busOk rtcInit).b.testBit 3 = false ↔
      (0 < busOk.recvRet ((rtcInit.b &&& 0x30) >>> 4) ∧
       busOk.recvByte ((rtcInit.b &&& 0x30) >>> 4) ≠ 0xff)) ∧
    (mAdbOut.b &&& VIA1B_vADBInt ≠ 0) ∧
    ((via_adb_poll busOk mAdbOut).b.testBit 3 = false ↔
      busOk.pollRet ((mAdbOut.b &&& 0x30) >>> 4) = true) ∧
    (rtcInit.b &&& VIA1B_vADBInt = 0) ∧
    (via_adb_poll busOk rtcInit).b = rtcInit.b :=
  ⟨by decide, (adb_status_bit_semantics busOk mAdbOut).1 (by decide),
   by decide, (adb_status_bit_semantics busOk rtcInit).2.1 (by decide),
   by decide, (adb_status_bit_semantics busOk mAdbOut).2.2.1 (by decide),
   by decide, (adb_status_bit_semantics busOk rtcInit).2.2.2 (by decide)⟩

/-! C10: port-B write with the RTC engine disabled -/

/-- The ADB engine never touches the RTC serial state or the PRAM store. -/
theorem via1_adb_update_rtc_fields (bus : AdbBus) (m : MacVIAState) :
    (via1_adb_update bus m).data_out = m.data_out ∧
    (via1_adb_update bus m).data_out_cnt = m.data_out_cnt ∧
    (via1_adb_update bus m).data_in = m.data_in ∧
    (via1_adb_update bus m).data_in_cnt = m.data_in_cnt ∧
    (via1_adb_update bus m).cmd = m.cmd ∧
    (via1_adb_update bus m).alt = m.alt ∧
    (via1_adb_update bus m).wprotect = m.wprotect ∧
    (via1_adb_update bus m).PRAM = m.PRAM := by
  unfold via1_adb_update
  repeat' split
  all_goals exact ⟨rfl, rfl, rfl, rfl, rfl, rfl, rfl, rfl⟩

/-- C10: while the RTC-enable bit (active-low) is set in the written port-B
value, a VIA1 port-B write leaves the whole RTC serial state and the PRAM
store unchanged, and the write is exactly the ADB engine run followed by
the last_b snapshot. -/
theorem portB_write_rtc_disabled_frame (now : Nat) (bus : AdbBus) (m : MacVIAState)
    (h : m.b &&& VIA1B_vRTCEnb ≠ 0) :
    (mos6522_q800_via1_portB_write now bus m).data_out = m.data_out ∧
    (mos6522_q800_via1_portB_write now bus m).data_out_cnt = m.data_out_cnt ∧
    (mos6522_q800_via1_portB_write now bus m).data_in = m.data_in ∧
    (mos6522_q800_via1_portB_write now bus m).data_in_cnt = m.data_in_cnt ∧
    (mos6522_q800_via1_portB_write now bus m).cmd = m.cmd ∧
    (mos6522_q800_via1_portB_write now bus m).alt = m.alt ∧
    (mos6522_q800_via1_portB_write now bus m).wprotect = m.wprotect ∧
    (mos6522_q800_via1_portB_write now bus m).PRAM = m.PRAM ∧
    mos6522_q800_via1_portB_write now bus m =
      { via1_adb_update bus m with last_b := (via1_adb_update bus m).b } := by
  have hrtc : via1_rtc_update now m = m := by
    unfold via1_rtc_update
    rw [if_pos h]
  unfold mos6522_q800_via1_portB_write
  rw [hrtc]
  obtain ⟨h1, h2, h3, h4, h5, h6, h7, h8⟩ := via1_adb_update_rtc_fields bus m
  exact ⟨h1, h2, h3, h4, h5, h6, h7, h8, rfl⟩

/-- C10 witness: a port-B write carrying the RTC-enable bit, against the
concrete transport, keeps every RTC field of the initial state. -/
theorem portB_write_rtc_disabled_frame_witness :
    (mRtcOff.b &&& VIA1B_vRTCEnb ≠ 0) ∧
    ((mos6522_q800_via1_portB_write 0 busOk mRtcOff).data_out = mRtcOff.data_out ∧
     (mos6522_q800_via1_portB_write 0 busOk mRtcOff).data_out_cnt = mRtcOff.data_out_cnt ∧
     (mos6522_q800_via1_portB_write 0 busOk mRtcOff).data_in = mRtcOff.data_in ∧
     (mos6522_q800_via1_portB_write 0 busOk mRtcOff).data_in_cnt = mRtcOff.data_in_cnt ∧
     (mos6522_q800_via1_portB_write 0 busOk mRtcOff).cmd = mRtcOff.cmd ∧
     (mos6522_q800_via1_portB_write 0 busOk mRtcOff).alt = mRtcOff.alt ∧
     (mos6522_q800_via1_portB_write 0 busOk mRtcOff).wprotect = mRtcOff.wprotect ∧
     (mos6522_q800_via1_portB_write 0 busOk mRtcOff).PRAM = mRtcOff.PRAM ∧
     mos6522_q800_via1_portB_write 0 busOk mRtcOff =
       { via1_adb_update busOk mRtcOff with last_b := (via1_adb_update busOk mRtcOff).b }) :=
  ⟨by decide, portB_write_rtc_disabled_frame 0 busOk mRtcOff (by decide)⟩

/-! RTC engine frame lemmas -/

/-- The first-byte decode never touches the store, the write-protect flag
or the alt latch. -/
theorem rtcCmdFirst_frame (now : Nat) (m : MacVIAState) :
    (rtcCmdFirst now m).wprotect = m.wprotect ∧
    (rtcCmdFirst now m).PRAM = m.PRAM ∧
    (rtcCmdFirst now m).alt = m.alt := by
  unfold rtcCmdFirst
  repeat' split
  all_goals exact ⟨rfl, rfl, rfl⟩

/-- Read-continuation path of the second-byte dispatch: with bit 7 of the
latched command set, only the extended-PRAM read can fire. -/
theorem rtcCmdSecond_read (m : MacVIAState) (h7 : m.cmd &&& 0x80 ≠ 0) :
    rtcCmdSecond m =
      if m.cmd &&& 0xf8 = 0xb8 then
        { m with
          data_in := m.PRAM ((m.cmd &&& 0x07) * 8 + ((m.data_out >>> 2) &&& 0x1f)),
          data_in_cnt := 8 }
      else m := by
  unfold rtcCmdSecond
  rw [if_pos h7]

/-- With bit 7 of the latched command clear and the store write-protected,
the second-byte dispatch is the identity. -/
theorem rtcCmdSecond_wp (m : MacVIAState) (hw : m.wprotect ≠ 0)
    (h7 : m.cmd &&& 0x80 = 0) : rtcCmdSecond m = m := by
  unfold rtcCmdSecond
  rw [if_neg (show ¬m.cmd &&& 0x80 ≠ 0 from fun hh => hh h7), if_neg hw]

/-- Write continuation with the alt latch set: store the data byte at
sector*8 + ((alt >> 2) & 0x1F) and consume the latch. -/
theorem rtcCmdSecond_alt (m : MacVIAState) (h7 : m.cmd &&& 0x80 = 0)
    (hw : m.wprotect = 0) (ha : m.alt ≠ 0) :
    rtcCmdSecond m =
      { m with
        PRAM := updPRAM m.PRAM ((m.cmd &&& 0x07) * 8 + ((m.alt >>> 2) &&& 0x1f)) m.data_out,
        alt := 0 } := by
  unfold rtcCmdSecond
  rw [if_neg (show ¬m.cmd &&& 0x80 ≠ 0 from fun hh => hh h7), if_pos hw, if_pos ha]

/-- Write continuation for the write-protect register 0x35. -/
theorem rtcCmdSecond_wp35 (m : MacVIAState) (h7 : m.cmd &&& 0x80 = 0)
    (hw : m.wprotect = 0) (ha : m.alt = 0) (hc : m.cmd = 0x35) :
    rtcCmdSecond m = { m with wprotect := m.data_out &&& 1 } := by
  unfold rtcCmdSecond
  rw [if_neg (show ¬m.cmd &&& 0x80 ≠ 0 from fun hh => hh h7), if_pos hw,
      if_neg (show ¬m.alt ≠ 0 from fun hh => hh ha),
      if_neg (show ¬m.cmd = 0x01 by rw [hc]; decide),
      if_neg (show ¬m.cmd = 0x05 by rw [hc]; decide),
      if_neg (show ¬m.cmd = 0x09 by rw [hc]; decide),
      if_neg (show ¬m.cmd = 0x0d by rw [hc]; decide),
      if_neg (show ¬m.cmd = 0x31 by rw [hc]; decide), if_pos hc]

/-- Write continuation for every other write command with no alt latch:
the stubs 0x01/0x05/0x09/0x0D and 0x31 are no-ops, and the 0xA1- and
0xB8-masked branches cannot fire because bit 7 of the command is clear —
the dispatch is the identity. -/
theorem rtcCmdSecond_write_noop (m : MacVIAState) (h7 : m.cmd &&& 0x80 = 0)
    (hw : m.wprotect = 0) (ha : m.alt = 0) (h35 : m.cmd ≠ 0x35) :
    rtcCmdSecond m = m := by
  unfold rtcCmdSecond
  rw [if_neg (show ¬m.cmd &&& 0x80 ≠ 0 from fun hh => hh h7), if_pos hw,
      if_neg (show ¬m.alt ≠ 0 from fun hh => hh ha)]
  by_cases h1 : m.cmd = 0x01
  · rw [if_pos h1]
  rw [if_neg h1]
  by_cases h5 : m.cmd = 0x05
  · rw [if_pos h5]
  rw [if_neg h5]
  by_cases h9 : m.cmd = 0x09
  · rw [if_pos h9]
  rw [if_neg h9]
  by_cases hd : m.cmd = 0x0d
  · rw [if_pos hd]
  rw [if_neg hd]
  by_cases h31 : m.cmd = 0x31
  · rw [if_pos h31]
  rw [if_neg h31, if_neg h35,
      if_neg (mask_forces_bit7 m.cmd 0xf3 0xa1 (by decide) (by decide) h7),
      if_neg (mask_forces_bit7 m.cmd 0xf3 0xa1 (by decide) (by decide) h7),
      if_neg (mask_forces_bit7 m.cmd 0xf8 0xb8 (by decide) (by decide) h7)]

/-- The second-byte dispatch never changes the latched command. -/
theorem rtcCmdSecond_cmd (m : MacVIAState) : (rtcCmdSecond m).cmd = m.cmd := by
  by_cases h7 : m.cmd &&& 0x80 = 0
  · by_cases hw : m.wprotect = 0
    · by_cases ha : m.alt = 0
      · by_cases h35 : m.cmd = 0x35
        · rw [rtcCmdSecond_wp35 m h7 hw ha h35]
        · rw [rtcCmdSecond_write_noop m h7 hw ha h35]
      · rw [rtcCmdSecond_alt m h7 hw ha]
    · rw [rtcCmdSecond_wp m hw h7]
  · rw [rtcCmdSecond_read m h7]
    by_cases hb : m.cmd &&& 0xf8 = 0xb8
    · rw [if_pos hb]
    · rw [if_neg hb]

/-- The serial shift step never touches the dispatch state or the store. -/
theorem rtcShift_frame (m : MacVIAState) :
    (rtcShift m).wprotect = m.wprotect ∧
    (rtcShift m).PRAM = m.PRAM ∧
    (rtcShift m).cmd = m.cmd ∧
    (rtcShift m).alt = m.alt := by
  unfold rtcShift
  repeat' split
  all_goals exact ⟨rfl, rfl, rfl, rfl⟩

/-- Under a nonzero write-protect flag the second-byte dispatch leaves the
flag and the store unchanged. -/
theorem rtcCmdSecond_wprotect_ne (m : MacVIAState) (h : m.wprotect ≠ 0) :
    (rtcCmdSecond m).wprotect = m.wprotect ∧ (rtcCmdSecond m).PRAM = m.PRAM := by
  by_cases h7 : m.cmd &&& 0x80 = 0
  · rw [rtcCmdSecond_wp m h h7]
    exact ⟨rfl, rfl⟩
  · rw [rtcCmdSecond_read m h7]
    by_cases hb : m.cmd &&& 0xf8 = 0xb8
    · rw [if_pos hb]
      exact ⟨rfl, rfl⟩
    · rw [if_neg hb]
      exact ⟨rfl, rfl⟩

/-- Once the write-protect flag is nonzero, no port-B RTC engine run ever
changes it or the store. -/
theorem via1_rtc_update_wprotect_ne (now : Nat) (m : MacVIAState) (h : m.wprotect ≠ 0) :
    (via1_rtc_update now m).wprotect = m.wprotect ∧
    (via1_rtc_update now m).PRAM = m.PRAM := by
  unfold via1_rtc_update
  split
  · exact ⟨rfl, rfl⟩
  split
  · unfold rtcDispatch
    by_cases hc : (rtcShift m).cmd = 0
    · rw [if_pos hc]
      constructor
      · show (rtcCmdFirst now (rtcShift m)).wprotect = m.wprotect
        rw [(rtcCmdFirst_frame now (rtcShift m)).1, (rtcShift_frame m).1]
      · show (rtcCmdFirst now (rtcShift m)).PRAM = m.PRAM
        rw [(rtcCmdFirst_frame now (rtcShift m)).2.1, (rtcShift_frame m).2.1]
    · rw [if_neg hc]
      have hw : (rtcShift m).wprotect ≠ 0 := by
        rw [(rtcShift_frame m).1]
        exact h
      constructor
      · show (rtcCmdSecond (rtcShift m)).wprotect = m.wprotect
        rw [(rtcCmdSecond_wprotect_ne (rtcShift m) hw).1, (rtcShift_frame m).1]
      · show (rtcCmdSecond (rtcShift m)).PRAM = m.PRAM
        rw [(rtcCmdSecond_wprotect_ne (rtcShift m) hw).2, (rtcShift_frame m).2.1]
  · exact ⟨(rtcShift_frame m).1, (rtcShift_frame m).2.1⟩

/-! C1: write continuations never clear the latched command -/

/-- C1 counterexample: from reset, clocking in the write command 0x31 and
then a data byte completes a write transaction, after which the latched
command is still 0x31 rather than 0. -/
theorem rtc_write_leaves_cmd_latched_cex :
    (sendBytes 0 rtcInit [0x31, 0x00]).cmd = 0x31 ∧
    (sendBytes 0 rtcInit [0x31, 0x00]).cmd ≠ 0 := by decide

/-- C1 (amended): a completed byte processed under a latched write command
with the store not write-protected is dispatched per the decode table
(alt set: extended PRAM write consuming the alt latch; alt clear: only 0x35
changes state, every other write command leaves the store and flags
unchanged), but the latched command is not cleared: it survives the
dispatch, so the next completed byte is treated as another continuation of
the same command. -/
theorem rtc_write_continuation_keeps_cmd (now : Nat) (m : MacVIAState)
    (h0 : m.cmd ≠ 0) (h7 : m.cmd &&& 0x80 = 0) (hw : m.wprotect = 0) :
    (rtcDispatch now m).cmd = m.cmd ∧
    (rtcDispatch now m).data_out = 0 ∧
    (m.alt ≠ 0 →
      (rtcDispatch now m).PRAM =
        updPRAM m.PRAM ((m.cmd &&& 0x07) * 8 + ((m.alt >>> 2) &&& 0x1f)) m.data_out ∧
      (rtcDispatch now m).alt = 0) ∧
    (m.alt = 0 → m.cmd = 0x35 → (rtcDispatch now m).wprotect = m.data_out &&& 1) ∧
    (m.alt = 0 → m.cmd ≠ 0x35 →
      (rtcDispatch now m).PRAM = m.PRAM ∧
      (rtcDispatch now m).wprotect = 0 ∧
      (rtcDispatch now m).alt = 0) := by
  have hd : rtcDispatch now m = { rtcCmdSecond m with data_out := 0, data_out_cnt := 0 } := by
    unfold rtcDispatch
    rw [if_neg h0]
  rw [hd]
  refine ⟨?_, rfl, fun ha => ?_, fun ha h35 => ?_, fun ha h35 => ?_⟩
  · show (rtcCmdSecond m).cmd = m.cmd
    exact rtcCmdSecond_cmd m
  · rw [rtcCmdSecond_alt m h7 hw ha]
    exact ⟨rfl, rfl⟩
  · rw [rtcCmdSecond_wp35 m h7 hw ha h35]
  · rw [rtcCmdSecond_write_noop m h7 hw ha h35]
    exact ⟨rfl, hw, ha⟩

/-- C1 witness: the amended statement evaluated at the latched test-register
command 0x31 with a pending data byte. -/
theorem rtc_write_continuation_keeps_cmd_witness :
    (mWrCont.cmd ≠ 0 ∧ mWrCont.cmd &&& 0x80 = 0 ∧ mWrCont.wprotect = 0 ∧
     mWrCont.alt = 0 ∧ mWrCont.cmd ≠ 0x35) ∧
    (rtcDispatch 0 mWrCont).cmd = mWrCont.cmd ∧
    (rtcDispatch 0 mWrCont).data_out = 0 ∧
    ((rtcDispatch 0 mWrCont).PRAM = mWrCont.PRAM ∧
     (rtcDispatch 0 mWrCont).wprotect = 0 ∧
     (rtcDispatch 0 mWrCont).alt = 0) :=
  ⟨⟨by decide, by decide, by decide, by decide, by decide⟩,
   (rtc_write_continuation_keeps_cmd 0 mWrCont (by decide) (by decide) (by decide)).1,
   (rtc_write_continuation_keeps_cmd 0 mWrCont (by decide) (by decide) (by decide)).2.1,
   (rtc_write_continuation_keeps_cmd 0 mWrCont (by decide) (by decide) (by decide)).2.2.2.2
     rfl (by decide)⟩

/-! C2: the write-protect gate -/

/-- C2 counterexample: from reset, clocking in 0x35, 0x01 (set
write-protect), then 0x35, 0x00 (the transaction the claim says restores
writability), then the extended write attempt 0xB8, 0x04, 0x42, leaves the
device write-protected and the store unchanged at the target address:
writability is never restored. -/
theorem rtc_wprotect_clear_fails_cex :
    (sendBytes 0 rtcInit [0x35, 0x01, 0x35, 0x00, 0xb8, 0x04, 0x42]).wprotect = 1 ∧
    (sendBytes 0 rtcInit [0x35, 0x01, 0x35, 0x00, 0xb8, 0x04, 0x42]).PRAM 1 = 0 := by
  decide

/-- C2 (amended): a completed 0x35 transaction with data bit 0 = 1 sets the
write-protect flag, after which every PRAM write attempt leaves the store
unchanged; but the flag can never be cleared again — once it is nonzero, no
RTC engine run changes it or the store, because the 0x35 handler itself
sits behind the not-write-protected guard. -/
theorem rtc_wprotect_set_is_permanent (now1 now2 : Nat) (m : MacVIAState) (d : Nat)
    (hc : m.cmd = 0) (hw : m.wprotect = 0) (ha : m.alt = 0) (hd : d &&& 1 = 1) :
    (feedByte now2 (feedByte now1 m 0x35) d).wprotect = 1 ∧
    (∀ now q, q.wprotect ≠ 0 →
      (via1_rtc_update now q).wprotect = q.wprotect ∧
      (via1_rtc_update now q).PRAM = q.PRAM) := by
  constructor
  · have s1 : feedByte now1 m 0x35 =
        { m with data_out := 0, data_out_cnt := 0, cmd := 0x35 } := by
      show rtcDispatch now1 { m with data_out := 0x35, data_out_cnt := 8 } = _
      unfold rtcDispatch
      rw [if_pos
        (show ({ m with data_out := 0x35, data_out_cnt := 8 } : MacVIAState).cmd = 0 from hc)]
      unfold rtcCmdFirst
      rw [if_neg (show ¬((0x35 : Nat) &&& 0x80 ≠ 0) from by decide)]
    rw [s1]
    show (rtcDispatch now2
      { m with data_out := d, data_out_cnt := 8, cmd := 0x35 }).wprotect = 1
    unfold rtcDispatch
    rw [if_neg (show ¬((0x35 : Nat) = 0) from by decide),
        rtcCmdSecond_wp35 { m with data_out := d, data_out_cnt := 8, cmd := 0x35 }
          (show (0x35 : Nat) &&& 0x80 = 0 from by decide) hw ha rfl]
    show d &&& 1 = 1
    exact hd
  · intro now q hq
    exact via1_rtc_update_wprotect_ne now q hq

/-- C2 witness: the set half of the amended statement evaluated from the
reset state with data byte 1. -/
theorem rtc_wprotect_set_is_permanent_witness :
    rtcInit.cmd = 0 ∧ rtcInit.wprotect = 0 ∧ rtcInit.alt = 0 ∧ 1 &&& 1 = 1 ∧
    (feedByte 0 (feedByte 0 rtcInit 0x35) 1).wprotect = 1 :=
  ⟨rfl, rfl, rfl, by decide,
   (rtc_wprotect_set_is_permanent 0 0 rtcInit 1 rfl rfl rfl (by decide)).1⟩

/-! C3: the extended PRAM write path is unreachable -/

/-- C3 (code evaluated at the failing input): from reset, clocking in the
extended command 0xB8, an address byte 0x04 and a data byte 0x42 never
writes the store and never sets the alt latch: both trailing bytes are
handled as extended-PRAM read continuations (data_in_cnt ends at 8), the
command stays latched, and PRAM[1] — the address the claim says receives
0x42 — still holds 0. -/
theorem rtc_extended_write_unreachable_eval :
    (sendBytes 0 rtcInit [0xb8, 0x04, 0x42]).PRAM 1 = 0 ∧
    (sendBytes 0 rtcInit [0xb8, 0x04, 0x42]).alt = 0 ∧
    (sendBytes 0 rtcInit [0xb8, 0x04, 0x42]).cmd = 0xb8 ∧
    (sendBytes 0 rtcInit [0xb8, 0x04, 0x42]).data_in_cnt = 8 := by decide

/-! C6: RTC seconds round-trip -/

/-- C6: with no command latched, the completed read bytes 0x81, 0x85, 0x89
and 0x8D load data_in with bytes 0..3 (byte 0 least significant) of the
32-bit value tick_offset + floor(now / 1e9 ns) and set data_in_cnt to 8;
the four bytes reassemble the 32-bit seconds value in little-endian
order. -/
theorem rtc_seconds_read_le32 (now : Nat) (m : MacVIAState) (hc : m.cmd = 0) :
    (feedByte now m 0x81).data_in = rtcTime now m.tick_offset &&& 0xff ∧
    (feedByte now m 0x81).data_in_cnt = 8 ∧
    (feedByte now m 0x85).data_in = (rtcTime now m.tick_offset >>> 8) &&& 0xff ∧
    (feedByte now m 0x85).data_in_cnt = 8 ∧
    (feedByte now m 0x89).data_in = (rtcTime now m.tick_offset >>> 16) &&& 0xff ∧
    (feedByte now m 0x89).data_in_cnt = 8 ∧
    (feedByte now m 0x8d).data_in = (rtcTime now m.tick_offset >>> 24) &&& 0xff ∧
    (feedByte now m 0x8d).data_in_cnt = 8 ∧
    (feedByte now m 0x81).data_in + (feedByte now m 0x85).data_in * 256 +
        (feedByte now m 0x89).data_in * 65536 +
        (feedByte now m 0x8d).data_in * 16777216 =
      rtcTime now m.tick_offset := by
  have e81 : feedByte now m 0x81 =
      { m with data_out := 0, data_out_cnt := 0,
               data_in := rtcTime now m.tick_offset &&& 0xff, data_in_cnt := 8 } := by
    show rtcDispatch now { m with data_out := 0x81, data_out_cnt := 8 } = _
    unfold rtcDispatch
    rw [if_pos
      (show ({ m with data_out := 0x81, data_out_cnt := 8 } : MacVIAState).cmd = 0 from hc)]
    unfold rtcCmdFirst
    rw [if_pos (show (0x81 : Nat) &&& 0x80 ≠ 0 from by decide),
        if_pos (show (0x81 : Nat) = 0x81 from rfl)]
  have e85 : feedByte now m 0x85 =
      { m with data_out := 0, data_out_cnt := 0,
               data_in := (rtcTime now m.tick_offset >>> 8) &&& 0xff, data_in_cnt := 8 } := by
    show rtcDispatch now { m with data_out := 0x85, data_out_cnt := 8 } = _
    unfold rtcDispatch
    rw [if_pos
      (show ({ m with data_out := 0x85, data_out_cnt := 8 } : MacVIAState).cmd = 0 from hc)]
    unfold rtcCmdFirst
    rw [if_pos (show (0x85 : Nat) &&& 0x80 ≠ 0 from by decide),
        if_neg (show ¬((0x85 : Nat) = 0x81) from by decide),
        if_pos (show (0x85 : Nat) = 0x85 from rfl)]
  have e89 : feedByte now m 0x89 =
      { m with data_out := 0, data_out_cnt := 0,
               data_in := (rtcTime now m.tick_offset >>> 16) &&& 0xff, data_in_cnt := 8 } := by
    show rtcDispatch now { m with data_out := 0x89, data_out_cnt := 8 } = _
    unfold rtcDispatch
    rw [if_pos
      (show ({ m with data_out := 0x89, data_out_cnt := 8 } : MacVIAState).cmd = 0 from hc)]
    unfold rtcCmdFirst
    rw [if_pos (show (0x89 : Nat) &&& 0x80 ≠ 0 from by decide),
        if_neg (show ¬((0x89 : Nat) = 0x81) from by decide),
        if_neg (show ¬((0x89 : Nat) = 0x85) from by decide),
        if_pos (show (0x89 : Nat) = 0x89 from rfl)]
  have e8d : feedByte now m 0x8d =
      { m with data_out := 0, data_out_cnt := 0,
               data_in := (rtcTime now m.tick_offset >>> 24) &&& 0xff, data_in_cnt := 8 } := by
    show rtcDispatch now { m with data_out := 0x8d, data_out_cnt := 8 } = _
    unfold rtcDispatch
    rw [if_pos
      (show ({ m with data_out := 0x8d, data_out_cnt := 8 } : MacVIAState).cmd = 0 from hc)]
    unfold rtcCmdFirst
    rw [if_pos (show (0x8d : Nat) &&& 0x80 ≠ 0 from by decide),
        if_neg (show ¬((0x8d : Nat) = 0x81) from by decide),
        if_neg (show ¬((0x8d : Nat) = 0x85) from by decide),
        if_neg (show ¬((0x8d : Nat) = 0x89) from by decide),
        if_pos (show (0x8d : Nat) = 0x8d from rfl)]
  rw [e81, e85, e89, e8d]
  refine ⟨rfl, rfl, rfl, rfl, rfl, rfl, rfl, rfl, ?_⟩
  show (rtcTime now m.tick_offset &&& 0xff) +
      ((rtcTime now m.tick_offset >>> 8) &&& 0xff) * 256 +
      ((rtcTime now m.tick_offset >>> 16) &&& 0xff) * 65536 +
      ((rtcTime now m.tick_offset >>> 24) &&& 0xff) * 16777216 =
    rtcTime now m.tick_offset
  exact le32_reassemble (rtcTime now m.tick_offset)
    (by unfold rtcTime; exact Nat.mod_lt _ (by norm_num))

/-- C6 witness: the seconds read evaluated at epoch offset 305419896 and
virtual time 5 seconds. -/
theorem rtc_seconds_read_le32_witness :
    mSec.cmd = 0 ∧
    ((feedByte 5000000000 mSec 0x81).data_in = rtcTime 5000000000 mSec.tick_offset &&& 0xff ∧
     (feedByte 5000000000 mSec 0x81).data_in_cnt = 8 ∧
     (feedByte 5000000000 mSec 0x85).data_in =
       (rtcTime 5000000000 mSec.tick_offset >>> 8) &&& 0xff ∧
     (feedByte 5000000000 mSec 0x85).data_in_cnt = 8 ∧
     (feedByte 5000000000 mSec 0x89).data_in =
       (rtcTime 5000000000 mSec.tick_offset >>> 16) &&& 0xff ∧
     (feedByte 5000000000 mSec 0x89).data_in_cnt = 8 ∧
     (feedByte 5000000000 mSec 0x8d).data_in =
       (rtcTime 5000000000 mSec.tick_offset >>> 24) &&& 0xff ∧
     (feedByte 5000000000 mSec 0x8d).data_in_cnt = 8 ∧
     (feedByte 5000000000 mSec 0x81).data_in + (feedByte 5000000000 mSec 0x85).data_in * 256 +
         (feedByte 5000000000 mSec 0x89).data_in * 65536 +
         (feedByte 5000000000 mSec 0x8d).data_in * 16777216 =
       rtcTime 5000000000 mSec.tick_offset) :=
  ⟨rfl, rtc_seconds_read_le32 5000000000 mSec rfl⟩

/-! C9: PRAM 0xA1-mask decode precedence -/

/-- C9 counterexample: under a latched 0xA1 command (which matches the
0xA1/0xF3 write mask), a completed data byte 0x42 does not write PRAM
address (0xA1 >> 2) & 0x3 = 0: the dispatch takes the read-continuation
path and the store is untouched. -/
theorem pram_a1_write_continuation_cex :
    (feedByte 0 mA9 0x42).PRAM 0 = 0 ∧
    (feedByte 0 mA9 0x42).PRAM 0 ≠ 0x42 := by decide

/-- C9 (amended): a first-byte read command matching (b & 0xF3) == 0xA1 is
decoded by the first, 4-entry PRAM rule at address (b >> 2) & 0x3 — the
16-entry rule behind the identical mask never fires; and a latched
0xA1-masked command is never dispatched by the write-continuation rules,
because those are reached only with bit 7 of the command clear while the
mask forces bit 7 set: such a command takes the read-continuation path and
leaves the store, write-protect flag and alt latch unchanged. -/
theorem pram_a1_decode_precedence (now : Nat) (m : MacVIAState) :
    (m.cmd = 0 → m.data_out &&& 0xf3 = 0xa1 →
      (rtcDispatch now m).data_in = m.PRAM ((m.data_out >>> 2) &&& 0x03) ∧
      (rtcDispatch now m).data_in_cnt = 8 ∧
      (rtcDispatch now m).PRAM = m.PRAM) ∧
    (m.cmd &&& 0xf3 = 0xa1 →
      (rtcDispatch now m).PRAM = m.PRAM ∧
      (rtcDispatch now m).wprotect = m.wprotect ∧
      (rtcDispatch now m).alt = m.alt) := by
  constructor
  · intro hc hm
    unfold rtcDispatch
    rw [if_pos hc]
    unfold rtcCmdFirst
    have hbit : m.data_out &&& 0x80 = 0x80 := a1_mask_bit7 m.data_out hm
    rw [if_pos (show m.data_out &&& 0x80 ≠ 0 from by rw [hbit]; decide),
        if_neg (show ¬m.data_out = 0x81 from fun e => by
          rw [e] at hm; exact absurd hm (by decide)),
        if_neg (show ¬m.data_out = 0x85 from fun e => by
          rw [e] at hm; exact absurd hm (by decide)),
        if_neg (show ¬m.data_out = 0x89 from fun e => by
          rw [e] at hm; exact absurd hm (by decide)),
        if_neg (show ¬m.data_out = 0x8d from fun e => by
          rw [e] at hm; exact absurd hm (by decide)),
        if_pos hm]
    exact ⟨rfl, rfl, rfl⟩
  · intro hm
    have hbit : m.cmd &&& 0x80 = 0x80 := a1_mask_bit7 m.cmd hm
    have hc0 : m.cmd ≠ 0 := fun e => by rw [e] at hm; exact absurd hm (by decide)
    unfold rtcDispatch
    rw [if_neg hc0, rtcCmdSecond_read m (show m.cmd &&& 0x80 ≠ 0 from by rw [hbit]; decide)]
    by_cases hb : m.cmd &&& 0xf8 = 0xb8
    · rw [if_pos hb]
      exact ⟨rfl, rfl, rfl⟩
    · rw [if_neg hb]
      exact ⟨rfl, rfl, rfl⟩

/-- C9 witness: the amended statement evaluated at the read command 0xAD
over a distinguishable store, and at the latched command 0xA1. -/
theorem pram_a1_decode_precedence_witness :
    mA1.cmd = 0 ∧ mA1.data_out &&& 0xf3 = 0xa1 ∧
    ((rtcDispatch 0 mA1).data_in = mA1.PRAM ((mA1.data_out >>> 2) &&& 0x03) ∧
     (rtcDispatch 0 mA1).data_in_cnt = 8 ∧
     (rtcDispatch 0 mA1).PRAM = mA1.PRAM) ∧
    mA9.cmd &&& 0xf3 = 0xa1 ∧
    ((rtcDispatch 0 mA9).PRAM = mA9.PRAM ∧
     (rtcDispatch 0 mA9).wprotect = mA9.wprotect ∧
     (rtcDispatch 0 mA9).alt = mA9.alt) :=
  ⟨rfl, by decide, (pram_a1_decode_precedence 0 mA1).1 rfl (by decide),
   by decide, (pram_a1_decode_precedence 0 mA9).2 (by decide)⟩
